import Mathlib

/-!
Verification development for the Trade-SmartBot core (tradeManager.py and
strategy.py), shallowly embedded in Lean 4.  Python dicts with a fixed key
set become structures with `Option` fields for keys that may be absent;
Python floats become rationals (with a small `XF` type where the source can
produce `inf`/`nan`); code that can raise is modelled with `Except` or with
explicit outcome flags for the gateway calls that may raise.
-/

/-- A value stored in a ccxt `params` dict: the source stores booleans,
strings and numbers. -/
inductive PParam
  | pb (b : Bool)
  | ps (s : String)
  | pq (q : ℚ)
deriving DecidableEq

/-- Membership test for a key in a params dict (`'k' in params`). -/
def hasKey (p : List (String × PParam)) (k : String) : Bool :=
  p.any (fun kv => kv.1 == k)

/-- Lookup of a key in a params dict (`params['k']`). -/
def getKey (p : List (String × PParam)) (k : String) : Option PParam :=
  (p.find? (fun kv => kv.1 == k)).map (fun kv => kv.2)

/-- Params built by `TradeManager.place_order` (tradeManager.py lines
106-114): `reduceOnly` exactly when the `reduce_only` argument is set, and
`positionSide` exactly when hedge mode is on. -/
def place_order_params (reduce_only : Bool) (is_hedge : Bool) (side : String) :
    List (String × PParam) :=
  (if reduce_only then [("reduceOnly", PParam.pb true)] else [])
    ++ (if is_hedge then
          [("positionSide", PParam.ps (if side.toLower == "buy" then "LONG" else "SHORT"))]
        else [])

/-- Params built by `TradeManager.close_position` (tradeManager.py lines
497-508): in hedge mode only `positionSide` (taken from the position's
`positionSide` key, upper-cased, or derived from its side when empty); in
one-way mode only `reduceOnly = True`. -/
def close_position_params (is_hedge : Bool) (posPositionSide : String) (side : String) :
    List (String × PParam) :=
  if is_hedge then
    let ps0 := posPositionSide.toUpper
    let ps1 := if ps0 == "" then (if side == "long" then "LONG" else "SHORT") else ps0
    [("positionSide", PParam.ps ps1)]
  else
    [("reduceOnly", PParam.pb true)]

/-- Params built by `TradeManager._place_stop_loss` (tradeManager.py lines
281-291) and `_place_take_profit` (lines 361-371): `stopPrice`,
`reduceOnly = True` and `closePosition = 'true'` are always present, and
`positionSide` is added when hedge mode is on. -/
def cond_order_params (is_hedge : Bool) (side : String) (price : ℚ) :
    List (String × PParam) :=
  [("stopPrice", PParam.pq price), ("reduceOnly", PParam.pb true),
   ("closePosition", PParam.ps "true")]
    ++ (if is_hedge then
          [("positionSide", PParam.ps (if side == "long" then "LONG" else "SHORT"))]
        else [])

/-- Params of the fourth (direct low-level API) attempt of the conditional
order helpers (tradeManager.py lines 329-339 and 409-419): `reduceOnly` is
always the string `'true'`, and `positionSide` is copied from the ccxt
params when hedge mode is on. -/
def direct_api_params (is_hedge : Bool) (side order_side typeTok symbol : String)
    (price amount : ℚ) : List (String × PParam) :=
  [("symbol", PParam.ps (((symbol.splitOn ":").headD "").replace "/" "")),
   ("side", PParam.ps order_side.toUpper), ("type", PParam.ps typeTok),
   ("stopPrice", PParam.ps (toString price)), ("quantity", PParam.ps (toString amount)),
   ("reduceOnly", PParam.ps "true"), ("timeInForce", PParam.ps "GTC")]
    ++ (if is_hedge && hasKey (cond_order_params is_hedge side price) "positionSide" then
          [("positionSide", PParam.ps (if side == "long" then "LONG" else "SHORT"))]
        else [])

/-- A position dict.  `get_open_positions` writes exactly the keys
`symbol`, `side`, `size`, `entry_price`, `pnl`, `sl_price`, `tp_price`;
the keys `stop_loss` and `last_price` are read elsewhere with
`position.get(...)` but never written by the snapshot reader, so they are
`Option` fields that the reader leaves at `none`. -/
structure Position where
  symbol : String := ""
  side : String := ""
  size : ℚ := 0
  entry_price : ℚ := 0
  pnl : ℚ := 0
  sl_price : Option ℚ := none
  tp_price : Option ℚ := none
  stop_loss : Option ℚ := none
  last_price : Option ℚ := none
deriving DecidableEq

/-- The evaluation context dict built by the drivers: symbol, position,
timestamp, plus the flags `stop_loss_hit` (set by the caller) and
`trailing_stop_hit` / the attached profit-taking action (annotated by the
trailing-stop strategy; the latter models the context key
`partial_profit`). -/
structure ActionDict where
  action : Option String := none
  symbol : Option String := none
  side : Option String := none
  order_type : Option String := none
  amount : Option ℚ := none
  take_profit : Option ℚ := none
  profit_pct : Option ℚ := none
  comment : Option String := none
deriving DecidableEq

structure Ctx where
  symbol : String := ""
  position : Option Position := none
  timestamp : ℚ := 0
  stop_loss_hit : Bool := false
  trailing_stop_hit : Bool := false
  profit_action : Option ActionDict := none
deriving DecidableEq

/-- A call into the order executor, as dispatched by
`TradeManager.check_strategies` (tradeManager.py lines 620-640). -/
inductive ExecCall
  | placeOrderCall (symbol side order_type : String) (amount : ℚ)
  | closePositionCall (symbol : String)
  | closePartCall (symbol : String) (amount : ℚ)
  | closeAllPositionsCall
deriving DecidableEq

/-- `TradeManager` defines no `close_partial` method, so the
`hasattr(self, 'close_partial')` guard in `check_strategies` is false. -/
def tm_has_close_part_method : Bool := false

/-- The action dispatch of `TradeManager.check_strategies` (tradeManager.py
lines 620-640).  A missing required key (`result['symbol']`, ...) raises a
`KeyError` which the surrounding handler catches before any executor call
is made, so those cases dispatch nothing. -/
def check_strategies_route (hasClosePart : Bool) (posSize : ℚ) (r : ActionDict) :
    List ExecCall :=
  match r.action with
  | none => []
  | some a =>
    if a = "place_order" then
      match r.symbol, r.side with
      | some sy, some sd => [.placeOrderCall sy sd (r.order_type.getD "market") posSize]
      | _, _ => []
    else if a = "close_position" then
      match r.symbol with
      | some sy => [.closePositionCall sy]
      | none => []
    else if a = "partial_close" then
      if hasClosePart then
        match r.symbol, r.amount with
        | some sy, some am => [.closePartCall sy am]
        | _, _ => []
      else []
    else if a = "close_all_positions" then [.closeAllPositionsCall]
    else []

/-- Modelled from the amended claim's words: with no `close_partial`
method present, only `place_order`, `close_position` and
`close_all_positions` actions reach the executor; `partial_close` and
`place_order_with_tp` are dropped. -/
def route_amended (posSize : ℚ) (r : ActionDict) : List ExecCall :=
  match r.action with
  | some "place_order" =>
    match r.symbol, r.side with
    | some sy, some sd => [.placeOrderCall sy sd (r.order_type.getD "market") posSize]
    | _, _ => []
  | some "close_position" =>
    match r.symbol with
    | some sy => [.closePositionCall sy]
    | none => []
  | some "close_all_positions" => [.closeAllPositionsCall]
  | _ => []

/-- One attempt of the conditional-order fallback chain: either a ccxt
`create_order` with a given order-type string (and for the limit-style
take-profit variant a limit price), or the direct low-level API call. -/
inductive AttemptKind
  | createOrder
  | directApi
deriving DecidableEq

structure AttemptSpec where
  kind : AttemptKind
  orderType : String
  limitPrice : Option ℚ
deriving DecidableEq

/-- The four attempts of `TradeManager._place_stop_loss` in source order
(tradeManager.py lines 293-348). -/
def sl_attempt_list : List AttemptSpec :=
  [⟨.createOrder, "market", none⟩, ⟨.createOrder, "STOP_MARKET", none⟩,
   ⟨.createOrder, "STOP", none⟩, ⟨.directApi, "STOP_MARKET", none⟩]

/-- The four attempts of `TradeManager._place_take_profit` in source order
(tradeManager.py lines 373-428); the third passes the trigger price as a
limit price. -/
def tp_attempt_list (price : ℚ) : List AttemptSpec :=
  [⟨.createOrder, "market", none⟩, ⟨.createOrder, "TAKE_PROFIT_MARKET", none⟩,
   ⟨.createOrder, "TAKE_PROFIT", some price⟩, ⟨.directApi, "TAKE_PROFIT_MARKET", none⟩]

/-- The nested try/except structure of the fallback chain: each attempt is
paired with whether that gateway call succeeds (does not raise); the chain
returns at the first success, otherwise falls through to the next attempt,
and returns failure after the last.  The second component is the list of
attempts actually made, in order. -/
def run_attempt_chain : List (AttemptSpec × Bool) → Bool × List AttemptSpec
  | [] => (false, [])
  | (a, ok) :: rest =>
    if ok then (true, [a])
    else
      let r := run_attempt_chain rest
      (r.1, a :: r.2)

/-- `_place_stop_loss` as a function of the four attempt outcomes. -/
def place_stop_loss_run (o1 o2 o3 o4 : Bool) : Bool × List AttemptSpec :=
  run_attempt_chain (sl_attempt_list.zip [o1, o2, o3, o4])

/-- `_place_take_profit` as a function of the four attempt outcomes. -/
def place_take_profit_run (price : ℚ) (o1 o2 o3 o4 : Bool) : Bool × List AttemptSpec :=
  run_attempt_chain ((tp_attempt_list price).zip [o1, o2, o3, o4])

/-- A stop-loss strike record of `ThreeStrikeStrategy` (strategy.py lines
141-146). -/
structure StrikeEvent where
  symbol : String
  timestamp : ℚ
  side : String
  size : ℚ
deriving DecidableEq

/-- The state of a `ThreeStrikeStrategy` instance. -/
structure ThreeStrikeState where
  strike_limit : ℕ
  time_window : ℚ
  stop_loss_events : List StrikeEvent
deriving DecidableEq

/-- The strike record appended for a context (strategy.py lines 135-146):
symbol, the context timestamp, and the position's side and size (with the
dict-get defaults for a missing position). -/
def ctx_event (c : Ctx) : StrikeEvent :=
  { symbol := c.symbol
    timestamp := c.timestamp
    side := (c.position.map Position.side).getD ""
    size := (c.position.map Position.size).getD 0 }

/-- The recording step of `ThreeStrikeStrategy.should_execute`: append an
event iff the context carries `stop_loss_hit`. -/
def three_strike_record (s : ThreeStrikeState) (c : Ctx) : List StrikeEvent :=
  if c.stop_loss_hit then s.stop_loss_events ++ [ctx_event c] else s.stop_loss_events

/-- `ThreeStrikeStrategy.should_execute` (strategy.py lines 132-159):
record, prune to the events whose age relative to `now` (a fresh
`time.time()` reading) is at most the window, then compare the retained
count against the limit. -/
def three_strike_should_execute (s : ThreeStrikeState) (c : Ctx) (now : ℚ) :
    ThreeStrikeState × Bool :=
  let evs := (three_strike_record s c).filter
    (fun e => decide (now - e.timestamp ≤ s.time_window))
  ({ s with stop_loss_events := evs }, decide (s.strike_limit ≤ evs.length))

/-- `ThreeStrikeStrategy.execute` (strategy.py lines 161-166). -/
def three_strike_execute (s : ThreeStrikeState) : ActionDict :=
  { action := some "close_all_positions"
    comment := some ("Three Strike Protection: " ++ toString s.stop_loss_events.length
      ++ " stop losses triggered within time window") }

/-- A sequence of `should_execute` calls, each with its context and its
fresh clock reading, threading the mutable event list. -/
def three_strike_run (s : ThreeStrikeState) : List (Ctx × ℚ) → List Bool
  | [] => []
  | (c, now) :: rest =>
    (three_strike_should_execute s c now).2
      :: three_strike_run (three_strike_should_execute s c now).1 rest

/-- The number of events of a record list that are inside the window
relative to `now`. -/
def in_window_count (events : List StrikeEvent) (now window : ℚ) : ℕ :=
  (events.filter (fun e => decide (now - e.timestamp ≤ window))).length

/-- Modelled from the claim's words: on each call the answer is computed
from all events ever recorded (never pruned), counting those still inside
the window at that call's clock reading. -/
def three_strike_spec_run (limit : ℕ) (window : ℚ) (recorded : List StrikeEvent) :
    List (Ctx × ℚ) → List Bool
  | [] => []
  | (c, now) :: rest =>
    let rec2 := recorded ++ (if c.stop_loss_hit then [ctx_event c] else [])
    decide (limit ≤ in_window_count rec2 now window)
      :: three_strike_spec_run limit window rec2 rest

/-- Whether the character list `needle` occurs as a contiguous run inside
`hay` (the Python `in` operator on strings). -/
def char_run_at : List Char → List Char → Bool
  | [], _ => true
  | _ :: _, [] => false
  | a :: as, b :: bs => a == b && char_run_at as bs

def contains_run (needle : List Char) : List Char → Bool
  | [] => char_run_at needle []
  | c :: t => char_run_at needle (c :: t) || contains_run needle t

def str_contains_sub (needle hay : String) : Bool :=
  contains_run needle.toList hay.toList

/-- An open-order dict as consumed by the snapshot reader and by
`set_position_sltp`: id, the `type` token, and the price fields the reader
falls back through. -/
structure RawOrder where
  id : String := ""
  otype : String := ""
  stopPrice : Option ℚ := none
  triggerPrice : Option ℚ := none
  price : Option ℚ := none
  infoStopPrice : Option ℚ := none
  infoTakeProfitPrice : Option ℚ := none
deriving DecidableEq

/-- The cancellation predicate of `set_position_sltp` (tradeManager.py
lines 714-716): the lower-cased type token contains `stop` or
`take_profit`. -/
def sltp_cancel_matches (o : RawOrder) : Bool :=
  str_contains_sub "stop" o.otype.toLower || str_contains_sub "take_profit" o.otype.toLower

/-- The cancellation loop of `set_position_sltp` (tradeManager.py lines
711-721).  A raising `cancel_order` propagates out of the `for` loop to
the surrounding handler, so later matching orders are not cancelled;
earlier cancellations stand.  Returns the ids actually cancelled. -/
def sltp_cancel_loop (cancelRaises : String → Bool) : List RawOrder → List String
  | [] => []
  | o :: rest =>
    if sltp_cancel_matches o then
      if cancelRaises o.id then []
      else o.id :: sltp_cancel_loop cancelRaises rest
    else sltp_cancel_loop cancelRaises rest

/-- The observable outcome of one `set_position_sltp` call: the ids it
cancelled, the order types it attempted for the new SL and TP orders (in
order), and its return value. -/
structure SltpOutcome where
  cancelled : List String
  slAttemptTypes : List String
  tpAttemptTypes : List String
  retval : Bool
deriving DecidableEq

/-- `TradeManager.set_position_sltp` (tradeManager.py lines 683-803) over
explicit gateway outcomes.  When a position with nonzero size exists it
best-effort cancels matching conditional orders, then makes exactly one
`create_order` attempt per supplied price — type `stop_market` for the SL
and `take_profit_market` for the TP — whose failures are only logged
(`slCreateRaises` and `tpCreateRaises` change nothing observable here),
and returns `True`. -/
def set_position_sltp (orders : List RawOrder) (fetchOrdersRaises : Bool)
    (cancelRaises : String → Bool) (slCreateRaises tpCreateRaises : Bool)
    (positionSize : ℚ) (slPrice tpPrice : Option ℚ) : SltpOutcome :=
  if positionSize = 0 then ⟨[], [], [], false⟩
  else
    { cancelled := if fetchOrdersRaises then [] else sltp_cancel_loop cancelRaises orders
      slAttemptTypes := if slPrice.isSome then ["stop_market"] else []
      tpAttemptTypes := if tpPrice.isSome then ["take_profit_market"] else []
      retval := true }

/-- A raw gateway position dict, as returned by `fetch_positions`. -/
structure RawPosition where
  symbol : String := ""
  side : String := ""
  contracts : ℚ := 0
  entryPrice : ℚ := 0
  unrealizedPnl : ℚ := 0
deriving DecidableEq

/-- Python truthiness of an optional float (absent, `None` and `0` are
falsy). -/
def py_truthy_q : Option ℚ → Bool
  | none => false
  | some q => decide (q ≠ 0)

/-- The Python `or` over optional floats: the left operand if truthy,
otherwise the right operand as is. -/
def py_or_q (a b : Option ℚ) : Option ℚ := if py_truthy_q a then a else b

/-- One step of the SL/TP classification loop of `get_open_positions`
(tradeManager.py lines 41-55); the accumulator is the `(sl_price,
tp_price)` pair and a later matching order overwrites an earlier one. -/
def classify_step (acc : Option ℚ × Option ℚ) (o : RawOrder) : Option ℚ × Option ℚ :=
  let t := o.otype.toLower
  if (str_contains_sub "stop" t && !str_contains_sub "profit" t) || t == "stop_loss" then
    (py_or_q o.stopPrice (py_or_q o.triggerPrice o.infoStopPrice), acc.2)
  else if str_contains_sub "take_profit" t || t == "take_profit" then
    (acc.1, py_or_q o.stopPrice (py_or_q o.triggerPrice (py_or_q o.price o.infoTakeProfitPrice)))
  else acc

/-- The processed position dict built by `get_open_positions`
(tradeManager.py lines 57-66): exactly the keys `symbol`, `side`, `size`,
`entry_price`, `pnl`, `sl_price`, `tp_price` are written; in particular no
`stop_loss` and no `last_price` key. -/
def process_position (p : RawPosition) (orders : List RawOrder) : Position :=
  let sltp := orders.foldl classify_step (none, none)
  { symbol := p.symbol
    side := p.side
    size := p.contracts
    entry_price := p.entryPrice
    pnl := p.unrealizedPnl
    sl_price := sltp.1
    tp_price := sltp.2
    stop_loss := none
    last_price := none }

/-- `TradeManager.get_open_positions` (tradeManager.py lines 17-73):
zero-contract positions are skipped, the rest are processed with the open
orders fetched for their symbol. -/
def get_open_positions (raw : List (RawPosition × List RawOrder)) : List Position :=
  (raw.filter (fun pr => decide (pr.1.contracts ≠ 0))).map
    (fun pr => process_position pr.1 pr.2)

/-- The observable outcome of `check_stop_loss_hit`: its return value and
whether the strategy-notification block ran. -/
structure StopLossCheck where
  returned : Bool
  notified : Bool
deriving DecidableEq

/-- `TradeManager.check_stop_loss_hit` (tradeManager.py lines 645-681):
reads `position.get('stop_loss', 0)`; a missing or non-positive value
returns `False` at once, before any strategy is notified. -/
def check_stop_loss_hit (pos : Position) (current_price : ℚ) : StopLossCheck :=
  let stop_loss := pos.stop_loss.getD 0
  if stop_loss = 0 ∨ stop_loss ≤ 0 then ⟨false, false⟩
  else
    let hit := (pos.side == "long" && decide (current_price ≤ stop_loss)) ||
               (pos.side == "short" && decide (stop_loss ≤ current_price))
    if hit then ⟨true, true⟩ else ⟨false, false⟩

/-- The Python float values that the trailing-stop tracking can hold: a
finite value, `float('inf')` (the initial high-water of a non-long), or
`nan` (only producible through float arithmetic on `inf`). -/
inductive XF
  | fin (q : ℚ)
  | inf
  | nan
deriving DecidableEq

/-- Python truthiness of such a float (`0.0` is falsy; `inf` and `nan` are
truthy). -/
def xf_truthy : XF → Bool
  | .fin q => decide (q ≠ 0)
  | .inf => true
  | .nan => true

/-- Python `a <= x` for finite `a` (comparisons against `nan` are false). -/
def xf_le_from (a : ℚ) : XF → Bool
  | .fin b => decide (a ≤ b)
  | .inf => true
  | .nan => false

/-- Python `a >= x` for finite `a`. -/
def xf_ge_from (a : ℚ) : XF → Bool
  | .fin b => decide (b ≤ a)
  | .inf => false
  | .nan => false

/-- Python `max(c, x)` (keeps `c` unless `x` compares greater). -/
def xf_max (c : ℚ) : XF → XF
  | .fin b => .fin (max c b)
  | .inf => .inf
  | .nan => .fin c

/-- Python `min(c, x)` (keeps `c` unless `x` compares smaller). -/
def xf_min (c : ℚ) : XF → XF
  | .fin b => .fin (min c b)
  | .inf => .fin c
  | .nan => .fin c

/-- `w - w * (p / 100)` in Python float arithmetic (the non-finite branches
are unreachable for the states the source builds for a long). -/
def xf_trail_long : XF → ℚ → XF
  | .fin h, p => .fin (h - h * (p / 100))
  | .inf, p => if p < 0 then .inf else .nan
  | .nan, _ => .nan

/-- `w + w * (p / 100)` in Python float arithmetic. -/
def xf_trail_short : XF → ℚ → XF
  | .fin l, p => .fin (l + l * (p / 100))
  | .inf, p => if 0 < p then .inf else .nan
  | .nan, _ => .nan

/-- A profit level of `TrailingStopWithPartialProfits`. -/
structure ProfitLevel where
  percentage : ℚ
  amount_percentage : ℚ
deriving DecidableEq

def default_profit_levels : List ProfitLevel := [⟨5, 20⟩, ⟨10, 30⟩, ⟨20, 50⟩]

/-- The per-symbol tracking entry of `TrailingStopWithPartialProfits`
(strategy.py lines 196-203). -/
structure TSPosData where
  entry_price : ℚ
  side : String
  highest_price : XF
  lowest_price : XF
  profits_taken : List ℚ
deriving DecidableEq

/-- The state of a `TrailingStopWithPartialProfits` instance. -/
structure TSState where
  trailing_distance_pct : ℚ
  profit_levels : List ProfitLevel
  position_data : List (String × TSPosData)
deriving DecidableEq

/-- Dict lookup on the per-symbol tracking map. -/
def pd_lookup (l : List (String × TSPosData)) (k : String) : Option TSPosData :=
  (l.find? (fun kv => kv.1 == k)).map (fun kv => kv.2)

/-- Dict assignment on the per-symbol tracking map: overwrite an existing
key, else append. -/
def pd_insert (l : List (String × TSPosData)) (k : String) (v : TSPosData) :
    List (String × TSPosData) :=
  if (l.find? (fun kv => kv.1 == k)).isSome then
    l.map (fun kv => if kv.1 == k then (k, v) else kv)
  else l ++ [(k, v)]

/-- Dict `del` on the per-symbol tracking map. -/
def pd_erase (l : List (String × TSPosData)) (k : String) : List (String × TSPosData) :=
  l.filter (fun kv => !(kv.1 == k))

/-- `TrailingStopWithPartialProfits.update_position_tracking` (strategy.py
lines 193-215): create the entry on first sight (high-water is the current
price for a long and `inf` otherwise; low-water is the current price for a
short and `0` otherwise), afterwards only push the relevant watermark. -/
def update_position_tracking (s : TSState) (symbol : String) (pos : Position)
    (current : ℚ) : TSState :=
  match pd_lookup s.position_data symbol with
  | none =>
    let d0 : TSPosData :=
      { entry_price := pos.entry_price
        side := pos.side
        highest_price := if pos.side == "long" then XF.fin current else XF.inf
        lowest_price := if pos.side == "short" then XF.fin current else XF.fin 0
        profits_taken := [] }
    { s with position_data := pd_insert s.position_data symbol d0 }
  | some d =>
    if pos.side == "long" then
      let d1 := { d with highest_price := xf_max current d.highest_price }
      { s with position_data := pd_insert s.position_data symbol d1 }
    else
      let d1 := { d with lowest_price := xf_min current d.lowest_price }
      { s with position_data := pd_insert s.position_data symbol d1 }

/-- `TrailingStopWithPartialProfits.calculate_trailing_stop` (strategy.py
lines 217-234). -/
def calculate_trailing_stop (s : TSState) (symbol : String) : Option XF :=
  match pd_lookup s.position_data symbol with
  | none => none
  | some d =>
    if d.side == "long" then some (xf_trail_long d.highest_price s.trailing_distance_pct)
    else some (xf_trail_short d.lowest_price s.trailing_distance_pct)

/-- The profit percentage computation (strategy.py lines 247-250); a zero
denominator is a `ZeroDivisionError`, which the caller's handler turns
into a `False` evaluation. -/
def tsp_profit_pct (d : TSPosData) (current : ℚ) : Except Unit ℚ :=
  if d.side == "long" then
    if d.entry_price = 0 then .error ()
    else .ok ((current / d.entry_price - 1) * 100)
  else
    if current = 0 then .error ()
    else .ok ((d.entry_price / current - 1) * 100)

/-- The level scan of `check_partial_profits` (strategy.py lines 253-272):
the first level, in list order, whose target is reached and not yet
taken. -/
def scan_profit_levels (profit_pct : ℚ) (taken : List ℚ) :
    List ProfitLevel → Option ProfitLevel
  | [] => none
  | l :: rest =>
    if l.percentage ≤ profit_pct ∧ l.percentage ∉ taken then some l
    else scan_profit_levels profit_pct taken rest

/-- `TrailingStopWithPartialProfits.check_partial_profits` (strategy.py
lines 236-274): on a hit it marks the level taken in the tracking entry
and returns the `partial_close` action dict. -/
def check_profit_taking (s : TSState) (symbol : String) (pos : Position)
    (current : ℚ) : Except Unit (TSState × Option ActionDict) :=
  match pd_lookup s.position_data symbol with
  | none => .ok (s, none)
  | some d =>
    match tsp_profit_pct d current with
    | .error e => .error e
    | .ok profit_pct =>
      match scan_profit_levels profit_pct d.profits_taken s.profit_levels with
      | none => .ok (s, none)
      | some l =>
        let d2 := { d with profits_taken := d.profits_taken ++ [l.percentage] }
        let amount := pos.size * (l.amount_percentage / 100)
        .ok ({ s with position_data := pd_insert s.position_data symbol d2 },
             some { action := some "partial_close", symbol := some symbol,
                    amount := some amount, profit_pct := some l.percentage,
                    comment := some ("Taking " ++ toString l.amount_percentage
                      ++ "% profit at " ++ toString l.percentage ++ "% gain") })

/-- `TrailingStopWithPartialProfits.should_execute` (strategy.py lines
276-314): after the guards and the ticker fetch (whose failure is caught
and yields `False`), update the watermark, check the trailing stop first —
a truthy trigger price crossed in the position's direction flags the
context and returns at once — and only otherwise scan the profit levels. -/
def tsp_should_execute (s : TSState) (ctx : Ctx) (tickerOk : Bool) (current : ℚ) :
    TSState × Ctx × Bool :=
  match ctx.position with
  | none => (s, ctx, false)
  | some pos =>
    if ctx.symbol == "" then (s, ctx, false)
    else if !tickerOk then (s, ctx, false)
    else
      let s1 := update_position_tracking s ctx.symbol pos current
      let hit :=
        match calculate_trailing_stop s1 ctx.symbol with
        | none => false
        | some tsp =>
          if xf_truthy tsp then
            match pd_lookup s1.position_data ctx.symbol with
            | none => false
            | some d =>
              (d.side == "long" && xf_le_from current tsp) ||
              (d.side == "short" && xf_ge_from current tsp)
          else false
      if hit then (s1, { ctx with trailing_stop_hit := true }, true)
      else
        match check_profit_taking s1 ctx.symbol pos current with
        | .error _ => (s1, ctx, false)
        | .ok (s2, none) => (s2, ctx, false)
        | .ok (s2, some a) => (s2, { ctx with profit_action := some a }, true)

/-- `TrailingStopWithPartialProfits.execute` (strategy.py lines 316-332):
the trailing-stop flag wins, discards the symbol's tracking entry and
returns the `close_position` action; otherwise the attached profit-taking
action is returned; otherwise the empty dict. -/
def tsp_execute (s : TSState) (ctx : Ctx) : TSState × ActionDict :=
  if ctx.trailing_stop_hit then
    let s2 := if ctx.symbol == "" then s
              else { s with position_data := pd_erase s.position_data ctx.symbol }
    (s2, { action := some "close_position", symbol := some ctx.symbol,
           comment := some "Trailing stop triggered" })
  else
    match ctx.profit_action with
    | some a => (s, a)
    | none => (s, {})

/-- The comment string of the StopAndReverse action. -/
def sar_comment (p : ℚ) : String := "Stop and Reverse with " ++ toString p ++ "% TP"

/-- `StopAndReverseStrategy.execute` (strategy.py lines 367-402): flip the
side, and place the take profit `tp_percentage` below the exit price for
the new sell side and above it for the new buy side. -/
def sarExecute (tp_percentage : ℚ) (ctx : Ctx) : ActionDict :=
  match ctx.position with
  | none => {}
  | some pos =>
    if ctx.symbol == "" then {}
    else if pos.side == "" then {}
    else
      match pos.last_price with
      | none => {}
      | some e =>
        if e = 0 then {}
        else
          let new_side := if pos.side == "long" then "sell" else "buy"
          let tp := if new_side == "sell" then e * (1 - tp_percentage / 100)
                    else e * (1 + tp_percentage / 100)
          { action := some "place_order_with_tp", symbol := some ctx.symbol,
            side := some new_side, order_type := some "market",
            take_profit := some tp, comment := some (sar_comment tp_percentage) }

/-- The shape of the value bound to `order` in `place_order_with_tp`: in
general a Python membership test distinguishes dicts (where `'id' not in
order` looks the key up) from booleans (where it raises `TypeError`);
`TradeManager.place_order` returns a boolean. -/
inductive PyV
  | bool (b : Bool)
  | dict (hasId : Bool)
deriving DecidableEq

/-- Python truthiness of such a value (the dicts reaching this test are
nonempty order dicts). -/
def py_truthy_v : PyV → Bool
  | .bool b => b
  | .dict _ => true

/-- The Python expression `'id' not in order`: a key lookup on a dict, a
`TypeError` on a boolean. -/
def py_id_not_in : PyV → Except String Bool
  | .bool _ => .error "TypeError: argument of type bool is not iterable"
  | .dict h => .ok (!h)

/-- The outcome of one `place_order_with_tp` call: its return value
(`none` models Python `None`) and the trigger prices of the take-profit
orders it created. -/
structure POWTOut where
  retval : Option PyV
  tpCalls : List ℚ
deriving DecidableEq

/-- The body of `TradeManager.place_order_with_tp` (tradeManager.py lines
205-270) over the value returned by `place_order`: guard on falsiness,
then on the membership test (which can raise), then optionally place one
take-profit order for the fetched position. -/
def place_order_with_tp_body (order : PyV) (positionFound : Option (String × ℚ))
    (take_profit : Option ℚ) : Except String POWTOut :=
  if !(py_truthy_v order) then .ok ⟨none, []⟩
  else
    match py_id_not_in order with
    | .error e => .error e
    | .ok notIn =>
      if notIn then .ok ⟨none, []⟩
      else
        match positionFound with
        | none => .ok ⟨some order, []⟩
        | some _ =>
          match take_profit with
          | none => .ok ⟨some order, []⟩
          | some tp => .ok ⟨some order, [tp]⟩

/-- `TradeManager.place_order_with_tp` itself: `place_order` returns a
boolean, and the enclosing handler converts any raise into a `None`
return (the raise happens before any take-profit call is made). -/
def place_order_with_tp (placeOrderResult : Bool)
    (positionFound : Option (String × ℚ)) (take_profit : Option ℚ) : POWTOut :=
  match place_order_with_tp_body (.bool placeOrderResult) positionFound take_profit with
  | .ok r => r
  | .error _ => ⟨none, []⟩

/-- A position as `StopAndReverseStrategy` sees it after a long was
stopped out at price 100. -/
def sar_pos0 : Position :=
  { symbol := "BTC/USDT", side := "long", size := 1, entry_price := 100,
    last_price := some 100 }

/-- The context handed to the stop-and-reverse strategy for that stop. -/
def sar_ctx0 : Ctx :=
  { symbol := "BTC/USDT", position := some sar_pos0, timestamp := 0,
    stop_loss_hit := true }

/-- A stop-loss-hit context on a given symbol at a given time. -/
def ts_hit_ctx (sym : String) (t : ℚ) : Ctx :=
  { symbol := sym,
    position := some { symbol := sym, side := "long", size := 1, entry_price := 100 },
    timestamp := t, stop_loss_hit := true }

/-- Two stop-loss events five time units apart, observed at their own
timestamps. -/
def ts_calls0 : List (Ctx × ℚ) := [(ts_hit_ctx "AAA" 0, 0), (ts_hit_ctx "BBB" 5, 5)]

/-- A strike recorded at time 0. -/
def c4_event : StrikeEvent := ⟨"AAA", 0, "long", 1⟩

/-- A three-strike state with limit 1, window 10 and that one event. -/
def c4_state : ThreeStrikeState := ⟨1, 10, [c4_event]⟩

/-- A plain evaluation context (no new stop-loss) at time 10, when the
recorded event's age is exactly the window. -/
def c4_ctx : Ctx := { symbol := "AAA", timestamp := 10 }

/-- One existing stop order, for exercising the cancellation loop. -/
def sltp_orders0 : List RawOrder := [{ id := "o1", otype := "STOP_MARKET" }]

/-- A long position of size 10 entered at 100. -/
def tsp_pos_w : Position := { symbol := "BTC", side := "long", size := 10, entry_price := 100 }

/-- Its tracking entry after the watermark reached 110. -/
def tsp_d0_w : TSPosData := ⟨100, "long", XF.fin 110, XF.fin 0, []⟩

/-- A trailing-stop strategy state (1% trail, default levels) tracking it. -/
def tsp_s_w : TSState := ⟨1, default_profit_levels, [("BTC", tsp_d0_w)]⟩

/-- The evaluation context for that position. -/
def tsp_ctx_w : Ctx := { symbol := "BTC", position := some tsp_pos_w, timestamp := 0 }

/-- The state after the profit-taking path would mark the 5% level taken. -/
def tsp_s2_w : TSState :=
  ⟨1, default_profit_levels, [("BTC", ⟨100, "long", XF.fin 110, XF.fin 0, [5]⟩)]⟩

/-- The partial-close action the profit-taking path would attach. -/
def tsp_a_w : ActionDict :=
  { action := some "partial_close", symbol := some "BTC", amount := some 2,
    profit_pct := some 5,
    comment := some ("Taking " ++ toString (20 : ℚ) ++ "% profit at "
      ++ toString (5 : ℚ) ++ "% gain") }

/-- A long position stopped out at 100, and its context. -/
def sar_pos_long : Position := { symbol := "B", side := "long", last_price := some 100 }

def sar_ctx_long : Ctx := { symbol := "B", position := some sar_pos_long }

/-- A short position stopped out at 100, and its context. -/
def sar_pos_short : Position := { symbol := "B", side := "short", last_price := some 100 }

def sar_ctx_short : Ctx := { symbol := "B", position := some sar_pos_short }

/-- Filtering with a stronger predicate absorbs a previous filtering with a
weaker one. -/
theorem filter_filter_of_imp {α : Type} (p q : α → Bool)
    (h : ∀ a, p a = true → q a = true) :
    ∀ l : List α, (l.filter q).filter p = l.filter p := by
  intro l
  induction l with
  | nil => rfl
  | cons a t ih =>
    cases hq : q a with
    | false =>
      cases hp : p a with
      | false => simp [List.filter_cons, hq, hp, ih]
      | true => exact absurd (h a hp) (by simp [hq])
    | true =>
      cases hp : p a with
      | false => simp [List.filter_cons, hq, hp, ih]
      | true => simp [List.filter_cons, hq, hp, ih]

/-- The pruned run and the never-pruned count agree from any point on, as
long as the clock readings do not decrease: an event dropped at an earlier
reading is also outside the window at every later reading. -/
theorem three_strike_run_aux (limit : ℕ) (window : ℚ) :
    ∀ (calls : List (Ctx × ℚ)) (recorded : List StrikeEvent) (now0 : ℚ),
      List.Chain' (fun a b => a ≤ b) (now0 :: calls.map Prod.snd) →
      three_strike_run
        ⟨limit, window, recorded.filter (fun e => decide (now0 - e.timestamp ≤ window))⟩
        calls
        = three_strike_spec_run limit window recorded calls := by
  intro calls
  induction calls with
  | nil => intro recorded now0 _; rfl
  | cons hd tl ih =>
    intro recorded now0 hch
    obtain ⟨c, now⟩ := hd
    rw [List.map_cons, List.chain'_cons] at hch
    have himp : ∀ e : StrikeEvent,
        decide (now - e.timestamp ≤ window) = true →
        decide (now0 - e.timestamp ≤ window) = true := by
      intro e he
      rw [decide_eq_true_eq] at he ⊢
      have h01 : now0 ≤ now := hch.1
      linarith
    have hff := filter_filter_of_imp _ _ himp recorded
    have key : (three_strike_record
          ⟨limit, window,
            recorded.filter (fun e => decide (now0 - e.timestamp ≤ window))⟩ c).filter
          (fun e => decide (now - e.timestamp ≤ window))
        = (recorded ++ (if c.stop_loss_hit then [ctx_event c] else [])).filter
          (fun e => decide (now - e.timestamp ≤ window)) := by
      simp only [three_strike_record]
      cases hhit : c.stop_loss_hit with
      | false =>
        rw [if_neg (by simp), if_neg (by simp), List.append_nil]
        exact hff
      | true =>
        rw [if_pos rfl, if_pos rfl, List.filter_append, List.filter_append, hff]
    simp only [three_strike_run, three_strike_spec_run, three_strike_should_execute,
      in_window_count, key]
    congr 1
    exact ih (recorded ++ (if c.stop_loss_hit then [ctx_event c] else [])) now hch.2

/-- The cancellation loop with no raising cancel call cancels exactly the
matching orders, in order. -/
theorem sltp_cancel_loop_no_raise :
    ∀ orders : List RawOrder,
      sltp_cancel_loop (fun _ => false) orders
        = (orders.filter sltp_cancel_matches).map (fun o => o.id) := by
  intro orders
  induction orders with
  | nil => rfl
  | cons o rest ih =>
    cases hm : sltp_cancel_matches o <;>
      simp [sltp_cancel_loop, List.filter_cons, hm, ih]

/-- Claim C1, counterexample: in hedge mode the stop-loss/take-profit
helper still emits `reduceOnly` (alongside `positionSide`) in its order
params, contradicting the claim that hedge-mode params never contain
`reduceOnly`. -/
theorem hedge_sl_params_contain_reduceOnly :
    hasKey (cond_order_params true "long" 100) "reduceOnly" = true
  ∧ hasKey (cond_order_params true "long" 100) "positionSide" = true := ⟨rfl, rfl⟩

/-- Claim C1, amended: `close_position` obeys the mode pairing exactly
(`reduceOnly` iff one-way, with value `True`; `positionSide` iff hedge);
`place_order` carries `reduceOnly` exactly per its `reduce_only` argument
and `positionSide` exactly in hedge mode; the conditional-order helpers
and their direct-API fallback always carry `reduceOnly` and add
`positionSide` exactly in hedge mode. -/
theorem order_params_mode_characterization :
    (∀ (hedge : Bool) (posSide side : String),
        hasKey (close_position_params hedge posSide side) "reduceOnly" = !hedge
      ∧ hasKey (close_position_params hedge posSide side) "positionSide" = hedge)
  ∧ (∀ posSide side : String,
        getKey (close_position_params false posSide side) "reduceOnly"
          = some (PParam.pb true))
  ∧ (∀ (hedge : Bool) (side : String) (price : ℚ),
        hasKey (cond_order_params hedge side price) "reduceOnly" = true
      ∧ getKey (cond_order_params hedge side price) "reduceOnly" = some (PParam.pb true)
      ∧ hasKey (cond_order_params hedge side price) "positionSide" = hedge)
  ∧ (∀ (ro hedge : Bool) (side : String),
        hasKey (place_order_params ro hedge side) "reduceOnly" = ro
      ∧ hasKey (place_order_params ro hedge side) "positionSide" = hedge)
  ∧ (∀ (hedge : Bool) (side os tt sym : String) (price amount : ℚ),
        hasKey (direct_api_params hedge side os tt sym price amount) "reduceOnly" = true
      ∧ hasKey (direct_api_params hedge side os tt sym price amount) "positionSide"
          = hedge) := by
  refine ⟨?_, ?_, ?_, ?_, ?_⟩
  · intro hedge posSide side; cases hedge <;> exact ⟨rfl, rfl⟩
  · intro posSide side; rfl
  · intro hedge side price; cases hedge <;> exact ⟨rfl, rfl, rfl⟩
  · intro ro hedge side; cases ro <;> cases hedge <;> exact ⟨rfl, rfl⟩
  · intro hedge side os tt sym price amount; cases hedge <;> exact ⟨rfl, rfl⟩

/-- Claim C2, counterexample: the action `StopAndReverseStrategy.execute`
produces carries the kind `place_order_with_tp`, and the dispatcher of
`check_strategies` sends it to no executor call at all. -/
theorem place_order_with_tp_action_dropped :
    (sarExecute 2 sar_ctx0).action = some "place_order_with_tp"
  ∧ check_strategies_route tm_has_close_part_method 1 (sarExecute 2 sar_ctx0) = [] :=
  ⟨rfl, rfl⟩

/-- Claim C2, amended: `check_strategies` routes `place_order` (with its
keys present), `close_position` (with its symbol) and
`close_all_positions` to exactly one executor call each, and drops
everything else — in particular `partial_close` (there is no
`close_partial` method) and `place_order_with_tp` (no dispatch branch). -/
theorem check_strategies_route_characterization (posSize : ℚ) (r : ActionDict) :
    check_strategies_route tm_has_close_part_method posSize r = route_amended posSize r
  ∧ (check_strategies_route tm_has_close_part_method posSize r).length ≤ 1 := by
  rcases r with ⟨act, sy, sd, ot, am, tp, pp, cm⟩
  cases act with
  | none => exact ⟨rfl, by simp [check_strategies_route]⟩
  | some a =>
    by_cases h1 : a = "place_order"
    · subst h1
      cases sy <;> cases sd <;>
        simp [check_strategies_route, route_amended, tm_has_close_part_method]
    · by_cases h2 : a = "close_position"
      · subst h2
        cases sy <;>
          simp [check_strategies_route, route_amended, tm_has_close_part_method]
      · by_cases h3 : a = "partial_close"
        · subst h3
          simp [check_strategies_route, route_amended, tm_has_close_part_method]
        · by_cases h4 : a = "close_all_positions"
          · subst h4
            simp [check_strategies_route, route_amended, tm_has_close_part_method]
          · simp [check_strategies_route, route_amended, tm_has_close_part_method,
              h1, h2, h3, h4]

/-- Claim C3: over any chronologically ordered sequence of evaluations,
`ThreeStrikeStrategy.should_execute` answers true exactly at the calls
where at least `strike_limit` of all events recorded so far are still
inside the time window at that call's clock reading — the pruned state and
the never-pruned count cannot disagree; and `execute` always returns a
`close_all_positions` action. -/
theorem three_strike_counts (limit : ℕ) (window : ℚ) (init : List StrikeEvent)
    (calls : List (Ctx × ℚ))
    (hmono : List.Chain' (fun a b => a ≤ b) (calls.map Prod.snd)) :
    three_strike_run ⟨limit, window, init⟩ calls
        = three_strike_spec_run limit window init calls
  ∧ ∀ s : ThreeStrikeState,
      (three_strike_execute s).action = some "close_all_positions" := by
  constructor
  · cases calls with
    | nil => rfl
    | cons hd tl =>
      obtain ⟨c, now⟩ := hd
      rw [List.map_cons] at hmono
      have key : three_strike_record ⟨limit, window, init⟩ c
          = init ++ (if c.stop_loss_hit then [ctx_event c] else []) := by
        simp only [three_strike_record]
        cases hhit : c.stop_loss_hit with
        | false => rw [if_neg (by simp), if_neg (by simp), List.append_nil]
        | true => rw [if_pos rfl, if_pos rfl]
      simp only [three_strike_run, three_strike_spec_run, three_strike_should_execute,
        in_window_count, key]
      congr 1
      exact three_strike_run_aux limit window tl
        (init ++ (if c.stop_loss_hit then [ctx_event c] else [])) now hmono
  · intro s; rfl

/-- Claim C3, witness: two stop-loss hits five time units apart with limit
2 and window 10. -/
theorem three_strike_counts_witness :
    (three_strike_run ⟨2, 10, []⟩ ts_calls0
        = three_strike_spec_run 2 10 [] ts_calls0)
  ∧ ∀ s : ThreeStrikeState,
      (three_strike_execute s).action = some "close_all_positions" :=
  three_strike_counts 2 10 [] ts_calls0
    (by norm_num [ts_calls0, ts_hit_ctx, List.chain'_cons, List.chain'_singleton])

/-- Claim C4, counterexample: with window 10 and a single event recorded
at time 0, an evaluation at time 10 — the event's age exactly the window —
keeps the event in the retained list and counts it, so with limit 1 the
strategy fires; the claim predicts the event is excluded. -/
theorem boundary_event_retained_at_window :
    (three_strike_should_execute c4_state c4_ctx 10).1.stop_loss_events = [c4_event]
  ∧ (three_strike_should_execute c4_state c4_ctx 10).2 = true := by
  constructor <;>
    norm_num [three_strike_should_execute, three_strike_record, c4_state, c4_ctx, c4_event]

/-- Claim C4, amended: the pruning step retains an event exactly when its
age `now - timestamp` is at most `time_window` — an event aged exactly the
window is retained and counted; only strictly older events are
excluded. -/
theorem prune_boundary_characterization (s : ThreeStrikeState) (c : Ctx) (now : ℚ)
    (e : StrikeEvent) :
    e ∈ (three_strike_should_execute s c now).1.stop_loss_events
      ↔ e ∈ three_strike_record s c ∧ now - e.timestamp ≤ s.time_window := by
  simp [three_strike_should_execute, List.mem_filter]

/-- Claim C5: both conditional-order helpers run their four fixed attempts
in order — the chain result is the disjunction of the attempt outcomes
(so failure is reported only when all four raise), and the attempts made
are exactly the prefix up to and including the first success, the whole
list (fourth included) when none succeeds. -/
theorem fallback_chain_behavior (price : ℚ) (o1 o2 o3 o4 : Bool) :
    (place_stop_loss_run o1 o2 o3 o4).1 = (o1 || o2 || o3 || o4)
  ∧ (place_stop_loss_run o1 o2 o3 o4).2
      = sl_attempt_list.take (if o1 then 1 else if o2 then 2 else if o3 then 3 else 4)
  ∧ (place_take_profit_run price o1 o2 o3 o4).1 = (o1 || o2 || o3 || o4)
  ∧ (place_take_profit_run price o1 o2 o3 o4).2
      = (tp_attempt_list price).take
          (if o1 then 1 else if o2 then 2 else if o3 then 3 else 4) := by
  cases o1 <;> cases o2 <;> cases o3 <;> cases o4 <;> exact ⟨rfl, rfl, rfl, rfl⟩

/-- Claim C6, counterexample: with a stop-loss price supplied and the
`create_order` call raising, `set_position_sltp` makes exactly one
placement attempt (type `stop_market`) and stops — whereas the four-step
fallback chain, when its first attempt raises, goes on to further attempts
(all four on total failure). -/
theorem sltp_single_attempt_not_fallback_chain :
    (set_position_sltp [] false (fun _ => false) true true 1
        (some 100) none).slAttemptTypes = ["stop_market"]
  ∧ (place_stop_loss_run false false false false).2.length = 4 := by
  constructor
  · norm_num [set_position_sltp]
  · rfl

/-- Claim C6, amended: given a nonzero-size position, `set_position_sltp`
cancels exactly the open orders whose lower-cased type contains `stop` or
`take_profit` (all of them when no cancel call raises); regardless of any
cancellation failure it places the new SL and TP each with a single
`create_order` attempt of type `stop_market` / `take_profit_market` (not
the four-step chain), and returns `True`. -/
theorem sltp_cancel_and_single_placement (orders : List RawOrder)
    (cr : String → Bool) (scr tcr : Bool) (sz : ℚ) (sl tp : Option ℚ)
    (hsz : sz ≠ 0) :
    (set_position_sltp orders false cr scr tcr sz sl tp).slAttemptTypes
        = (if sl.isSome then ["stop_market"] else [])
  ∧ (set_position_sltp orders false cr scr tcr sz sl tp).tpAttemptTypes
        = (if tp.isSome then ["take_profit_market"] else [])
  ∧ (set_position_sltp orders false (fun _ => false) scr tcr sz sl tp).cancelled
        = (orders.filter sltp_cancel_matches).map (fun o => o.id)
  ∧ (set_position_sltp orders false cr scr tcr sz sl tp).retval = true := by
  refine ⟨?_, ?_, ?_, ?_⟩ <;>
    simp [set_position_sltp, hsz, sltp_cancel_loop_no_raise]

/-- Claim C6, amended claim's witness: one matching order, every cancel
call raising, both prices supplied, size 5. -/
theorem sltp_cancel_and_single_placement_witness :
    (set_position_sltp sltp_orders0 false (fun _ => true) true true 5
        (some 100) (some 200)).slAttemptTypes
      = (if (some (100:ℚ)).isSome then ["stop_market"] else [])
  ∧ (set_position_sltp sltp_orders0 false (fun _ => true) true true 5
        (some 100) (some 200)).tpAttemptTypes
      = (if (some (200:ℚ)).isSome then ["take_profit_market"] else [])
  ∧ (set_position_sltp sltp_orders0 false (fun _ => false) true true 5
        (some 100) (some 200)).cancelled
      = (sltp_orders0.filter sltp_cancel_matches).map (fun o => o.id)
  ∧ (set_position_sltp sltp_orders0 false (fun _ => true) true true 5
        (some 100) (some 200)).retval = true :=
  sltp_cancel_and_single_placement sltp_orders0 (fun _ => true) true true 5
    (some 100) (some 200) (by norm_num)

/-- Claim C7: every position dict the snapshot reader produces has no
`stop_loss` key, so `check_stop_loss_hit` reads its default `0`, returns
`False` and notifies no strategy, whatever the current price. -/
theorem snapshot_positions_never_trigger_stop_loss
    (raw : List (RawPosition × List RawOrder)) (cp : ℚ) :
    (get_open_positions raw).all
      (fun pos => decide (check_stop_loss_hit pos cp = ⟨false, false⟩)) = true := by
  rw [List.all_eq_true]
  intro pos hmem
  rw [get_open_positions, List.mem_map] at hmem
  obtain ⟨pr, _, hpr⟩ := hmem
  rw [decide_eq_true_eq, ← hpr]
  rfl

/-- Claim C8: when the trailing-stop trigger is crossed on an evaluation —
even one where an untaken profit level is also reached —
`TrailingStopWithPartialProfits.should_execute` flags `trailing_stop_hit`
and returns true without touching the profit levels, and `execute` then
returns the single `close_position` action and deletes the symbol's
tracking entry. -/
theorem trailing_stop_priority
    (s : TSState) (ctx : Ctx) (current : ℚ) (pos : Position) (d : TSPosData) (tsp : XF)
    (s2 : TSState) (a : ActionDict)
    (hpos : ctx.position = some pos)
    (hsym : (ctx.symbol == "") = false)
    (hd : pd_lookup (update_position_tracking s ctx.symbol pos current).position_data
            ctx.symbol = some d)
    (htsp : calculate_trailing_stop (update_position_tracking s ctx.symbol pos current)
            ctx.symbol = some tsp)
    (htr : xf_truthy tsp = true)
    (hcross : ((d.side == "long" && xf_le_from current tsp) ||
               (d.side == "short" && xf_ge_from current tsp)) = true)
    (hpp : check_profit_taking (update_position_tracking s ctx.symbol pos current)
            ctx.symbol pos current = .ok (s2, some a)) :
    tsp_should_execute s ctx true current
        = (update_position_tracking s ctx.symbol pos current,
           { ctx with trailing_stop_hit := true }, true)
  ∧ tsp_execute (update_position_tracking s ctx.symbol pos current)
        { ctx with trailing_stop_hit := true }
        = ({ update_position_tracking s ctx.symbol pos current with
             position_data :=
               pd_erase
                 (update_position_tracking s ctx.symbol pos current).position_data
                 ctx.symbol },
           { action := some "close_position", symbol := some ctx.symbol,
             comment := some "Trailing stop triggered" }) := by
  constructor
  · simp [tsp_should_execute, hpos, hsym, htsp, htr, hd, hcross]
  · simp [tsp_execute, hsym]

/-- Claim C8, witness: a tracked long (entry 100, watermark 110, 1%
trail) evaluated at price 105, where the trailing trigger 108.9 is
crossed and the untaken 5% profit level is reached as well. -/
theorem trailing_stop_priority_witness :
    tsp_should_execute tsp_s_w tsp_ctx_w true 105
        = (update_position_tracking tsp_s_w "BTC" tsp_pos_w 105,
           { tsp_ctx_w with trailing_stop_hit := true }, true)
  ∧ tsp_execute (update_position_tracking tsp_s_w "BTC" tsp_pos_w 105)
        { tsp_ctx_w with trailing_stop_hit := true }
        = ({ update_position_tracking tsp_s_w "BTC" tsp_pos_w 105 with
             position_data :=
               pd_erase
                 (update_position_tracking tsp_s_w "BTC" tsp_pos_w 105).position_data
                 "BTC" },
           { action := some "close_position", symbol := some "BTC",
             comment := some "Trailing stop triggered" }) :=
  trailing_stop_priority tsp_s_w tsp_ctx_w 105 tsp_pos_w tsp_d0_w (XF.fin (1089 / 10))
    tsp_s2_w tsp_a_w rfl rfl
    (by norm_num [update_position_tracking, pd_lookup, pd_insert, tsp_s_w, tsp_d0_w,
      tsp_pos_w, tsp_ctx_w, xf_max, max_def])
    (by norm_num [calculate_trailing_stop, update_position_tracking, pd_lookup, pd_insert,
      tsp_s_w, tsp_d0_w, tsp_pos_w, tsp_ctx_w, xf_max, xf_trail_long, max_def])
    (by norm_num [xf_truthy])
    (by norm_num [tsp_d0_w, xf_le_from])
    (by norm_num [check_profit_taking, tsp_profit_pct, scan_profit_levels, pd_lookup,
      pd_insert, update_position_tracking, tsp_s_w, tsp_s2_w, tsp_d0_w, tsp_a_w,
      tsp_pos_w, tsp_ctx_w, default_profit_levels, xf_max, max_def])

/-- Claim C9: `StopAndReverseStrategy.execute` on a stopped long returns a
`place_order_with_tp` action with side `sell` and take profit
`E * (1 - p / 100)`, and on a stopped short side `buy` with take profit
`E * (1 + p / 100)`, where `E` is the position's last price. -/
theorem stop_and_reverse_take_profit (p E : ℚ) (ctx : Ctx) (pos : Position)
    (hpos : ctx.position = some pos)
    (hsym : (ctx.symbol == "") = false)
    (hexit : pos.last_price = some E)
    (hE : E ≠ 0) :
    (pos.side = "long" →
      sarExecute p ctx
        = { action := some "place_order_with_tp", symbol := some ctx.symbol,
            side := some "sell", order_type := some "market",
            take_profit := some (E * (1 - p / 100)),
            comment := some (sar_comment p) })
  ∧ (pos.side = "short" →
      sarExecute p ctx
        = { action := some "place_order_with_tp", symbol := some ctx.symbol,
            side := some "buy", order_type := some "market",
            take_profit := some (E * (1 + p / 100)),
            comment := some (sar_comment p) }) := by
  constructor <;> intro hside <;> simp [sarExecute, hpos, hsym, hexit, hE, hside]

/-- Claim C9, witness: exit 100 with 2% take profit gives sell at 98 for a
stopped long and buy at 102 for a stopped short. -/
theorem stop_and_reverse_take_profit_witness :
    sarExecute 2 sar_ctx_long
      = { action := some "place_order_with_tp", symbol := some "B", side := some "sell",
          order_type := some "market", take_profit := some ((100:ℚ) * (1 - 2 / 100)),
          comment := some (sar_comment 2) }
  ∧ (100:ℚ) * (1 - 2 / 100) = 98
  ∧ sarExecute 2 sar_ctx_short
      = { action := some "place_order_with_tp", symbol := some "B", side := some "buy",
          order_type := some "market", take_profit := some ((100:ℚ) * (1 + 2 / 100)),
          comment := some (sar_comment 2) }
  ∧ (100:ℚ) * (1 + 2 / 100) = 102 := by
  refine ⟨?_, by norm_num, ?_, by norm_num⟩
  · exact (stop_and_reverse_take_profit 2 100 sar_ctx_long sar_pos_long rfl rfl rfl
      (by norm_num)).1 rfl
  · exact (stop_and_reverse_take_profit 2 100 sar_ctx_short sar_pos_short rfl rfl rfl
      (by norm_num)).2 rfl

/-- Claim C10: for every outcome of the entry order, of the position
fetch and of the take-profit argument, `place_order_with_tp` returns
`None` and creates no take-profit order: a false entry result fails the
guard, and a true one makes the membership test raise `TypeError`, which
the handler converts to `None` before the take-profit code is reached. -/
theorem place_order_with_tp_always_none (b : Bool)
    (positionFound : Option (String × ℚ)) (take_profit : Option ℚ) :
    place_order_with_tp b positionFound take_profit = ⟨none, []⟩ := by
  cases b <;> rfl
